import Mathlib

/-!
Verification of the VideoProductionTracker aggregation core.

The development shallowly embeds the three Python modules of the repository:

* `database.py` — the SQLAlchemy row models actually served by the app
  (namespace `Database`),
* `app.py` — the Flask route handlers that read/write those rows and compute
  the dashboard figures (namespace `App`),
* `models.py` — the standalone `Video` / `CostModel` / `ProjectStats` /
  `DataManager` module (namespace `Models`).

Numeric amounts are embedded as `ℚ` (the Python code uses floats only for
plain arithmetic on user-entered decimals), timestamps as `Option String`
(ISO-format strings, `none` for a missing value), and Python dicts as
association lists in insertion order.
-/

namespace VPT

namespace Database

/-- Per `database.py`: `Video.VALID_STATUSES`, the 5-stage progression list. -/
def VIDEO_STATUSES : List String :=
  ["Conceptualization & Script", "VO", "Visuals", "Animations & Editing", "Final"]

/-- Per `database.py`: `Video.VALID_TYPES`. -/
def VIDEO_TYPES : List String := ["Brand", "System", "Testimonial", "About"]

/-- Per `database.py`: `Video.TESTIMONIAL_STATUSES`, the 7-stage progression list. -/
def TESTIMONIAL_STATUSES : List String :=
  ["Conceptualization & Script", "Avatar Creation", "Avatar Video Generation",
   "VO", "Visuals", "Animations & Editing", "Final"]

/-- Row of the `videos` table (`database.py`, class `Video`). -/
structure Video where
  id : String
  type : String
  status : String
  created_at : Option String := none
  updated_at : Option String := none
deriving DecidableEq, Repr

/-- Status progression list applicable to a video type: `TESTIMONIAL_STATUSES`
for `Testimonial`, `VALID_STATUSES` otherwise. This conditional appears verbatim
in `Video.get_progress_percentage` and in the `add_video` / `update_video_status`
routes of `app.py`. -/
def statusListFor (type : String) : List String :=
  if type == "Testimonial" then TESTIMONIAL_STATUSES else VIDEO_STATUSES

/-- Embeds `database.py` `Video.get_progress_percentage`: pick the status list by
type, look up the (first) index of the current status (`list.index`), and return
`((index + 1) / len) * 100`; a `ValueError` (status not in the list) yields `0.0`. -/
def Video.get_progress_percentage (v : Video) : ℚ :=
  let statuses := statusListFor v.type
  match statuses.findIdx? (fun s => s == v.status) with
  | some status_index => ((status_index : ℚ) + 1) / (statuses.length : ℚ) * 100
  | none => 0

/-- Embeds `database.py` `Video.is_completed`. -/
def Video.is_completed (v : Video) : Bool := v.status == "Final"

end Database

namespace App

/-- Embeds `all_statuses = set(VIDEO_STATUSES + Video.TESTIMONIAL_STATUSES)` from the
`index` route of `app.py`. A Python `set` is unordered; we canonicalise it as the
duplicate-free list of its elements. -/
def all_statuses : List String :=
  (Database.VIDEO_STATUSES ++ Database.TESTIMONIAL_STATUSES).dedup

/-- Embeds the `status_counts` dict built by the `index` route of `app.py`:
for each status in the combined set, the count of videos whose `status` field
equals it (`len([v for v in videos if v.status == status])`). -/
def status_counts (videos : List Database.Video) : List (String × Nat) :=
  all_statuses.map (fun s => (s, (videos.filter (fun v => v.status == s)).length))

end App

/-- Python `str.strip()`: the string with leading and trailing whitespace
characters removed, written out on the underlying character list. -/
def pyStrip (s : String) : String :=
  ⟨((s.data.dropWhile Char.isWhitespace).reverse.dropWhile Char.isWhitespace).reverse⟩

/-- Round-half-to-even on an exact rational, the semantics of Python's built-in
`round` for a tie; other fractions round to the nearest integer. -/
def roundHalfEven (q : ℚ) : ℤ :=
  if q - ⌊q⌋ < 1/2 then ⌊q⌋
  else if 1/2 < q - ⌊q⌋ then ⌊q⌋ + 1
  else if ⌊q⌋ % 2 = 0 then ⌊q⌋ else ⌊q⌋ + 1

/-- Python `round(x, 2)` on an exact rational. -/
def round2 (q : ℚ) : ℚ := (roundHalfEven (q * 100) : ℚ) / 100

namespace Models

/-- Python exception outcomes of a `models.py` call: a raised `ValidationError`
with its message, or a `TypeError` from a malformed call. -/
inductive PyError where
  | typeError
  | validationError (msg : String)
deriving DecidableEq, Repr

/-- Record held by `models.py` class `Video` (the module's own 5-status scheme). -/
structure Video where
  id : String
  type : String
  status : String
  created_at : Option String := none
  updated_at : Option String := none
deriving DecidableEq, Repr

/-- Per `models.py`: `Video.VALID_STATUSES`. -/
def Video.VALID_STATUSES : List String := ["Script", "VO", "Visuals", "Editing", "Final"]

/-- Per `models.py`: `Video.VALID_TYPES`. -/
def Video.VALID_TYPES : List String := ["Brand", "System", "Testimonial"]

/-- Embeds `models.py` `Video._validate_id`. -/
def Video.validate_id (id : String) : Except String String :=
  if id == "" then .error "Video ID must be a non-empty string"
  else
    let id := pyStrip id
    if id == "" then .error "Video ID cannot be empty or only whitespace"
    else if id.length > 100 then .error "Video ID cannot exceed 100 characters"
    else .ok id

/-- Embeds `models.py` `Video._validate_type`. -/
def Video.validate_type (type : String) : Except String String :=
  if type == "" || !Video.VALID_TYPES.contains type then
    .error "Video type must be one of: Brand, System, Testimonial"
  else .ok type

/-- Embeds `models.py` `Video._validate_status`. -/
def Video.validate_status (status : String) : Except String String :=
  if status == "" || !Video.VALID_STATUSES.contains status then
    .error "Video status must be one of: Script, VO, Visuals, Editing, Final"
  else .ok status

/-- Embeds `models.py` `Video.__init__(self, id, type, status='Script')`: runs the
three validators and stores the fields. The timestamp columns are left unset by the
constructor body (they are SQLAlchemy column defaults). -/
def Video.init (id type status : String) : Except String Video :=
  match Video.validate_id id with
  | .error m => .error m
  | .ok i =>
    match Video.validate_type type with
    | .error m => .error m
    | .ok t =>
      match Video.validate_status status with
      | .error m => .error m
      | .ok s => .ok ⟨i, t, s, none, none⟩

/-- Storage dictionary produced by `models.py` `Video.to_dict`. -/
structure VideoDict where
  id : String
  type : String
  status : String
  created_at : Option String
  updated_at : Option String
deriving DecidableEq, Repr

/-- Embeds `models.py` `Video.to_dict`. -/
def Video.to_dict (v : Video) : VideoDict :=
  ⟨v.id, v.type, v.status, v.created_at, v.updated_at⟩

/-- Keyword parameters accepted by `models.py` `Video.__init__`. -/
def Video.initParams : List String := ["id", "type", "status"]

/-- Keyword arguments that `models.py` `Video.from_dict` passes to `cls(...)`. -/
def Video.fromDictArgs : List String := ["id", "type", "status", "created_at", "updated_at"]

/-- Embeds `models.py` `Video.from_dict`. The classmethod calls
`cls(id=…, type=…, status=…, created_at=…, updated_at=…)`, but `Video.__init__`
accepts only `id`, `type` and `status`; CPython raises `TypeError` for an
unexpected keyword argument before the constructor body runs, so the call is
modelled by checking the passed keyword names against the accepted parameters. -/
def Video.from_dict (d : VideoDict) : Except PyError Video :=
  if Video.fromDictArgs.all (fun k => Video.initParams.contains k) then
    match Video.init d.id d.type d.status with
    | .ok v => .ok v
    | .error m => .error (.validationError m)
  else .error .typeError

/-- Embeds `models.py` `Video.is_completed`. -/
def Video.is_completed (v : Video) : Bool := v.status == "Final"

/-- Record held by `models.py` class `CostModel`. `created_at` is always a string
here: the constructor substitutes the current time for a missing value. -/
structure CostModel where
  id : Option ℤ
  type : String
  amount : ℚ
  currency : String
  notes : String
  created_at : String
deriving DecidableEq, Repr

/-- Per `models.py`: `CostModel.VALID_TYPES`. -/
def CostModel.VALID_TYPES : List String := ["Tool", "Freelancer", "Other"]

/-- Per `models.py`: `CostModel.VALID_CURRENCIES`. -/
def CostModel.VALID_CURRENCIES : List String := ["USD", "PKR"]

/-- Embeds `models.py` `CostModel._validate_type`. -/
def CostModel.validate_type (type : String) : Except String String :=
  if type == "" || !CostModel.VALID_TYPES.contains type then
    .error "Cost type must be one of: Tool, Freelancer, Other"
  else .ok type

/-- Embeds `models.py` `CostModel._validate_amount` on an already-numeric input:
negative amounts and amounts above 1,000,000 raise; the accepted value is
`round(amount, 2)`. -/
def CostModel.validate_amount (amount : ℚ) : Except String ℚ :=
  if amount < 0 then .error "Cost amount cannot be negative"
  else if amount > 1000000 then .error "Cost amount cannot exceed 1,000,000"
  else .ok (round2 amount)

/-- Embeds `models.py` `CostModel._validate_currency`. -/
def CostModel.validate_currency (currency : String) : Except String String :=
  if currency == "" || !CostModel.VALID_CURRENCIES.contains currency then
    .error "Currency must be one of: USD, PKR"
  else .ok currency

/-- Embeds `models.py` `CostModel._validate_notes` on a string input. -/
def CostModel.validate_notes (notes : String) : Except String String :=
  if notes.length > 500 then .error "Notes cannot exceed 500 characters"
  else .ok (pyStrip notes)

/-- Embeds `models.py` `CostModel.__init__`: the four validators in source order,
then `created_at = created_at or datetime.now().isoformat()` with the current
time passed in as `now`. -/
def CostModel.mk' (id : Option ℤ) (type : String) (amount : ℚ) (currency : String)
    (notes : String) (created_at : Option String) (now : String) :
    Except String CostModel :=
  match CostModel.validate_type type with
  | .error m => .error m
  | .ok t =>
    match CostModel.validate_amount amount with
    | .error m => .error m
    | .ok a =>
      match CostModel.validate_currency currency with
      | .error m => .error m
      | .ok c =>
        match CostModel.validate_notes notes with
        | .error m => .error m
        | .ok n =>
          .ok ⟨id, t, a, c, n,
            match created_at with
            | some s => if s == "" then now else s
            | none => now⟩

/-- Storage dictionary produced by `models.py` `CostModel.to_dict`. -/
structure CostDict where
  id : Option ℤ
  type : String
  amount : ℚ
  currency : String
  notes : String
  created_at : String
deriving DecidableEq, Repr

/-- Embeds `models.py` `CostModel.to_dict`. -/
def CostModel.to_dict (c : CostModel) : CostDict :=
  ⟨c.id, c.type, c.amount, c.currency, c.notes, c.created_at⟩

/-- Adds `v` to the entry of key `k` of a Python dict modelled as an association
list with pairwise-distinct keys. When `k` is not a key, `d[k] += v` would raise
`KeyError` in Python; here the list is returned unchanged, and every theorem
that touches the missing-key case restricts itself to validated records. -/
def addKey (d : List (String × ℚ)) (k : String) (v : ℚ) : List (String × ℚ) :=
  d.map (fun p => if p.1 == k then (p.1, p.2 + v) else p)

/-- Aggregation core of `models.py`, class `ProjectStats`. -/
structure ProjectStats where
  videos : List Video
  costs : List CostModel
  budget : ℚ := 0

/-- Embeds `ProjectStats.get_total_videos`. -/
def ProjectStats.get_total_videos (ps : ProjectStats) : Nat := ps.videos.length

/-- Embeds `ProjectStats.get_completed_videos`. -/
def ProjectStats.get_completed_videos (ps : ProjectStats) : Nat :=
  (ps.videos.filter Video.is_completed).length

/-- Embeds `ProjectStats.get_pending_videos`. -/
def ProjectStats.get_pending_videos (ps : ProjectStats) : Nat :=
  ps.get_total_videos - ps.get_completed_videos

/-- Embeds `ProjectStats.get_completion_rate`. -/
def ProjectStats.get_completion_rate (ps : ProjectStats) : ℚ :=
  if ps.get_total_videos = 0 then 0
  else ((ps.get_completed_videos : ℚ) / (ps.get_total_videos : ℚ)) * 100

/-- Embeds `ProjectStats.get_total_costs_by_currency`: a dict built in insertion
order, seeding a currency with `0.0` on first sight and then adding the amount. -/
def ProjectStats.get_total_costs_by_currency (ps : ProjectStats) : List (String × ℚ) :=
  ps.costs.foldl
    (fun totals c =>
      let totals := if totals.any (fun p => p.1 == c.currency) then totals
        else totals ++ [(c.currency, 0)]
      addKey totals c.currency c.amount)
    []

/-- Embeds `ProjectStats.get_cost_distribution_by_type`: the dict starts with the
three valid types at `0.0` and accumulates only costs whose currency is `"USD"`. -/
def ProjectStats.get_cost_distribution_by_type (ps : ProjectStats) : List (String × ℚ) :=
  ps.costs.foldl
    (fun d c => if c.currency == "USD" then addKey d c.type c.amount else d)
    (CostModel.VALID_TYPES.map (fun t => (t, (0 : ℚ))))

/-- Specification-side description of one entry of the cost distribution: the sum
of the amounts of the costs of the given type whose currency is `"USD"`. -/
def usdSumByType (costs : List CostModel) (t : String) : ℚ :=
  ((costs.filter (fun c => c.currency == "USD" && c.type == t)).map CostModel.amount).sum

/-- Result dict of `ProjectStats.get_budget_status`. -/
structure BudgetStatus where
  budget : ℚ
  spent : ℚ
  remaining : ℚ
  percentage_used : ℚ
  over_budget : Bool
  near_budget : Bool
deriving DecidableEq, Repr

/-- Embeds `ProjectStats.get_budget_status`. -/
def ProjectStats.get_budget_status (ps : ProjectStats) : BudgetStatus :=
  let usd_spent :=
    (ps.costs.filter (fun c => c.currency == "USD")).foldl (fun s c => s + c.amount) 0
  let remaining := ps.budget - usd_spent
  { budget := ps.budget
    spent := usd_spent
    remaining := remaining
    percentage_used := if ps.budget > 0 then usd_spent / ps.budget * 100 else 0
    over_budget := decide (remaining < 0)
    near_budget := if ps.budget > 0 then decide (remaining < ps.budget * (1/10)) else false }

/-- Sort key used by `get_recent_activity` for videos: `v.created_at or ''`. -/
def videoSortKey (v : Video) : String := v.created_at.getD ""

/-- Sort key used by `get_recent_activity` for costs: `c.created_at or ''`, which
on a string field is the field itself. -/
def costSortKey (c : CostModel) : String := c.created_at

/-- Embeds `ProjectStats.get_recent_activity`: each list is sorted by creation
timestamp, most recent first (Python's `sorted(…, reverse=True)` is a stable
descending sort, i.e. merge sort taking the earlier element on equal keys),
truncated to `limit`, and serialised with `to_dict`. -/
def ProjectStats.get_recent_activity (ps : ProjectStats) (limit : Nat := 5) :
    List VideoDict × List CostDict :=
  let recent_videos :=
    (ps.videos.mergeSort (fun a b => decide (videoSortKey b ≤ videoSortKey a))).take limit
  let recent_costs :=
    (ps.costs.mergeSort (fun a b => decide (costSortKey b ≤ costSortKey a))).take limit
  (recent_videos.map Video.to_dict, recent_costs.map CostModel.to_dict)

/-- Embeds `models.py` `DataManager.add_video` on the stored video collection:
a duplicate id raises `ValidationError`, which the method catches and turns into
`False` without saving; otherwise the video is appended and saved. -/
def DataManager.add_video (videos : List Video) (video : Video) : Bool × List Video :=
  if videos.any (fun v => v.id == video.id) then (false, videos)
  else (true, videos ++ [video])

end Models

namespace App

/-- Flask flash outcome of a route handler. -/
inductive Flash where
  | success (msg : String)
  | error (msg : String)
deriving DecidableEq, Repr

/-- True for the `error` flash category. -/
def Flash.isError : Flash → Bool
  | .error _ => true
  | .success _ => false

/-- Python falsiness of an optional form field (`not field`): missing or empty. -/
def isBlank : Option String → Bool
  | none => true
  | some s => s == ""

/-- Mutation performed by the `update_video_status` route on the matched row:
`Video.query.filter_by(id=…).first()` yields the first row with that id, whose
`status` and `updated_at` are then overwritten. -/
def setStatusFirst (videos : List Database.Video) (vid s now : String) :
    List Database.Video :=
  match videos with
  | [] => []
  | v :: rest =>
    if v.id == vid then { v with status := s, updated_at := some now } :: rest
    else v :: setStatusFirst rest vid s now

/-- Embeds the `update_video_status` route of `app.py`: blank fields and unknown
ids are rejected; the new status is validated against `TESTIMONIAL_STATUSES` when
the stored video's type is `Testimonial` and against `VIDEO_STATUSES` otherwise;
only a valid status updates the row. Returns the resulting table and the flash. -/
def update_video_status (videos : List Database.Video) (now : String)
    (video_id new_status : Option String) : List Database.Video × Flash :=
  if isBlank video_id || isBlank new_status then
    (videos, .error "Invalid request")
  else
    let vid := video_id.getD ""
    let ns := new_status.getD ""
    match videos.find? (fun v => v.id == vid) with
    | none => (videos, .error "Video not found")
    | some v =>
      let valid_statuses := Database.statusListFor v.type
      if valid_statuses.contains ns then
        (setStatusFirst videos vid ns now, .success "Video status updated successfully")
      else (videos, .error "Invalid video status")

end App

/-! ### Theorems -/

/-- C3: on videos `[{v1, Brand, Final}, {v2, Brand, VO}]`, costs
`[{Tool, 50, USD}, {Other, 1000, PKR}]` and budget `100`, the aggregator returns
`total_videos = 2`, `completed_videos = 1`, `completion_rate = 50`,
`total_costs_by_currency = {USD: 50, PKR: 1000}`,
`cost_distribution_by_type = {Tool: 50, Freelancer: 0, Other: 0}` and
`budget_status.remaining = 50`. -/
theorem c3_end_to_end_scenario :
    Models.ProjectStats.get_total_videos
      ⟨[⟨"v1", "Brand", "Final", none, none⟩, ⟨"v2", "Brand", "VO", none, none⟩],
       [⟨some 1, "Tool", 50, "USD", "", "t1"⟩, ⟨some 2, "Other", 1000, "PKR", "", "t2"⟩],
       100⟩ = 2 ∧
    Models.ProjectStats.get_completed_videos
      ⟨[⟨"v1", "Brand", "Final", none, none⟩, ⟨"v2", "Brand", "VO", none, none⟩],
       [⟨some 1, "Tool", 50, "USD", "", "t1"⟩, ⟨some 2, "Other", 1000, "PKR", "", "t2"⟩],
       100⟩ = 1 ∧
    Models.ProjectStats.get_completion_rate
      ⟨[⟨"v1", "Brand", "Final", none, none⟩, ⟨"v2", "Brand", "VO", none, none⟩],
       [⟨some 1, "Tool", 50, "USD", "", "t1"⟩, ⟨some 2, "Other", 1000, "PKR", "", "t2"⟩],
       100⟩ = 50 ∧
    Models.ProjectStats.get_total_costs_by_currency
      ⟨[⟨"v1", "Brand", "Final", none, none⟩, ⟨"v2", "Brand", "VO", none, none⟩],
       [⟨some 1, "Tool", 50, "USD", "", "t1"⟩, ⟨some 2, "Other", 1000, "PKR", "", "t2"⟩],
       100⟩ = [("USD", 50), ("PKR", 1000)] ∧
    Models.ProjectStats.get_cost_distribution_by_type
      ⟨[⟨"v1", "Brand", "Final", none, none⟩, ⟨"v2", "Brand", "VO", none, none⟩],
       [⟨some 1, "Tool", 50, "USD", "", "t1"⟩, ⟨some 2, "Other", 1000, "PKR", "", "t2"⟩],
       100⟩ = [("Tool", 50), ("Freelancer", 0), ("Other", 0)] ∧
    (Models.ProjectStats.get_budget_status
      ⟨[⟨"v1", "Brand", "Final", none, none⟩, ⟨"v2", "Brand", "VO", none, none⟩],
       [⟨some 1, "Tool", 50, "USD", "", "t1"⟩, ⟨some 2, "Other", 1000, "PKR", "", "t2"⟩],
       100⟩).remaining = 50 := by
  refine ⟨rfl, rfl, ?_, ?_, ?_, ?_⟩ <;>
    norm_num +decide [Models.ProjectStats.get_completion_rate, Models.ProjectStats.get_completed_videos,
      Models.ProjectStats.get_total_videos, Models.ProjectStats.get_total_costs_by_currency,
      Models.ProjectStats.get_cost_distribution_by_type, Models.ProjectStats.get_budget_status,
      Models.Video.is_completed, Models.addKey, Models.CostModel.VALID_TYPES]

/-- C4: `models.py` `Video.from_dict` passes the keyword arguments `created_at`
and `updated_at` to `Video.__init__`, which accepts only `id`, `type` and
`status`, so reconstruction raises `TypeError` for every storage dictionary;
in particular the round trip fails on the valid video
`{id: v1, type: Brand, status: Final}`. -/
theorem c4_video_roundtrip_raises_typeerror :
    (∀ d : Models.VideoDict, Models.Video.from_dict d = .error .typeError) ∧
    Models.Video.from_dict
        (Models.Video.to_dict ⟨"v1", "Brand", "Final", none, none⟩)
      = .error .typeError := by
  have h : Models.Video.fromDictArgs.all
      (fun k => Models.Video.initParams.contains k) = false := by decide
  exact ⟨fun d => by unfold Models.Video.from_dict; rw [h]; rfl, by rfl⟩

/-- Rounding a rational with an exact two-decimal representation is the identity;
in particular `round(0, 2) = 0`. -/
theorem round2_zero : round2 0 = 0 := by
  norm_num [round2, roundHalfEven]

/-- C5 counterexample: `CostModel.__init__` accepts an amount of exactly `0`
(`_validate_amount` rejects only negative amounts), so creating a cost with
`type = Tool, amount = 0, currency = USD` succeeds, while the claim requires any
amount that is not strictly positive to fail. -/
theorem c5_counterexample_zero_amount_accepted :
    Models.CostModel.mk' (some 1) "Tool" 0 "USD" "" none "2024-01-01"
      = .ok ⟨some 1, "Tool", 0, "USD", "", "2024-01-01"⟩ := by
  have ha : Models.CostModel.validate_amount 0 = .ok 0 := by
    rw [Models.CostModel.validate_amount, if_neg (by norm_num), if_neg (by norm_num),
      round2_zero]
  unfold Models.CostModel.mk'
  rw [ha]
  rfl

/-- C5 amended: creating a `CostModel` fails with a `ValidationError` whenever the
amount is negative or exceeds 1,000,000 — an amount of exactly `0` is accepted,
unlike what the claim states — and when creation succeeds the stored amount is the
given amount rounded (half-to-even) to two decimal places. -/
theorem c5_cost_amount_validation (id : Option ℤ) (type : String) (amount : ℚ)
    (currency : String) (notes : String) (created_at : Option String) (now : String)
    (htype : type ∈ Models.CostModel.VALID_TYPES)
    (hcur : currency ∈ Models.CostModel.VALID_CURRENCIES)
    (hnotes : notes.length ≤ 500) :
    ((amount < 0 ∨ amount > 1000000) →
      ∃ m, Models.CostModel.mk' id type amount currency notes created_at now
        = .error m) ∧
    (0 ≤ amount → amount ≤ 1000000 →
      ∃ c, Models.CostModel.mk' id type amount currency notes created_at now
          = .ok c ∧ c.amount = round2 amount) := by
  have ht : Models.CostModel.validate_type type = .ok type := by
    fin_cases htype <;> rfl
  have hc : Models.CostModel.validate_currency currency = .ok currency := by
    fin_cases hcur <;> rfl
  have hn : Models.CostModel.validate_notes notes = .ok (pyStrip notes) := by
    rw [Models.CostModel.validate_notes, if_neg (by omega)]
  constructor
  · rintro (hneg | hbig)
    · have ha : Models.CostModel.validate_amount amount
          = .error "Cost amount cannot be negative" := by
        rw [Models.CostModel.validate_amount, if_pos hneg]
      exact ⟨_, by unfold Models.CostModel.mk'; rw [ht, ha]⟩
    · have ha : Models.CostModel.validate_amount amount
          = .error "Cost amount cannot exceed 1,000,000" := by
        rw [Models.CostModel.validate_amount, if_neg (by linarith), if_pos hbig]
      exact ⟨_, by unfold Models.CostModel.mk'; rw [ht, ha]⟩
  · intro h0 h1M
    have ha : Models.CostModel.validate_amount amount = .ok (round2 amount) := by
      rw [Models.CostModel.validate_amount, if_neg (by linarith), if_neg (by linarith)]
    exact ⟨_, by unfold Models.CostModel.mk'; rw [ht, ha, hc, hn], rfl⟩

/-- C5 witness: the amended theorem applied at `amount = -5`, a valid type,
currency and notes, showing creation fails there. -/
theorem c5_cost_amount_validation_witness :
    ((-5 : ℚ) < 0 ∨ (-5 : ℚ) > 1000000) ∧
    ∃ m, Models.CostModel.mk' (some 1) "Tool" (-5) "USD" "" none "t" = .error m :=
  ⟨Or.inl (by norm_num),
    (c5_cost_amount_validation (some 1) "Tool" (-5) "USD" "" none "t"
      (by decide) (by decide) (by decide)).1 (Or.inl (by norm_num))⟩

/-- C8: adding a video whose id equals the id of an already-stored video is
rejected (`DataManager.add_video` returns `False`) and leaves the stored
collection exactly unchanged. -/
theorem c8_duplicate_video_add_rejected (videos : List Models.Video)
    (video : Models.Video) (h : ∃ v ∈ videos, v.id = video.id) :
    Models.DataManager.add_video videos video = (false, videos) := by
  obtain ⟨v, hv, hid⟩ := h
  have hany : videos.any (fun v => v.id == video.id) = true :=
    List.any_eq_true.mpr ⟨v, hv, by simp [hid]⟩
  simp [Models.DataManager.add_video, hany]

/-- Folding addition of the amounts equals the sum of the mapped amounts. -/
theorem foldl_add_amount (l : List Models.CostModel) :
    l.foldl (fun s c => s + c.amount) 0 = (l.map Models.CostModel.amount).sum := by
  rw [List.sum_eq_foldl, List.foldl_map]

/-- C2: for every budget and cost list, with `spent` the sum of the amounts of the
USD costs, the budget status satisfies `remaining = budget - spent`,
`percentage_used = spent / budget * 100` for a positive budget and `0` otherwise,
`over_budget ↔ remaining < 0`, and `near_budget ↔ remaining < budget * 0.1` for a
positive budget and `false` otherwise; in particular `budget = 100, spent = 120`
gives `remaining = -20` and `over_budget`, `budget = 100, spent = 95` gives
`near_budget`, and `budget = 0` gives `percentage_used = 0` and not `near_budget`. -/
theorem c2_budget_status (ps : Models.ProjectStats) :
    ((ps.get_budget_status).spent
        = ((ps.costs.filter (fun c => c.currency == "USD")).map
            Models.CostModel.amount).sum ∧
      (ps.get_budget_status).remaining = ps.budget - (ps.get_budget_status).spent ∧
      (ps.get_budget_status).percentage_used
        = (if ps.budget > 0 then (ps.get_budget_status).spent / ps.budget * 100 else 0) ∧
      (ps.get_budget_status).over_budget = decide ((ps.get_budget_status).remaining < 0) ∧
      (ps.get_budget_status).near_budget
        = (if ps.budget > 0
            then decide ((ps.get_budget_status).remaining < ps.budget * (1/10))
            else false)) ∧
    (Models.ProjectStats.get_budget_status
        ⟨[], [⟨some 1, "Other", 120, "USD", "", "t"⟩], 100⟩).remaining = -20 ∧
    (Models.ProjectStats.get_budget_status
        ⟨[], [⟨some 1, "Other", 120, "USD", "", "t"⟩], 100⟩).over_budget = true ∧
    (Models.ProjectStats.get_budget_status
        ⟨[], [⟨some 1, "Other", 95, "USD", "", "t"⟩], 100⟩).near_budget = true ∧
    (Models.ProjectStats.get_budget_status
        ⟨[], [⟨some 1, "Other", 95, "USD", "", "t"⟩], 0⟩).percentage_used = 0 ∧
    (Models.ProjectStats.get_budget_status
        ⟨[], [⟨some 1, "Other", 95, "USD", "", "t"⟩], 0⟩).near_budget = false := by
  refine ⟨⟨foldl_add_amount _, rfl, rfl, rfl, rfl⟩, ?_, ?_, ?_, ?_, ?_⟩ <;>
    norm_num +decide [Models.ProjectStats.get_budget_status]

/-- Each cost of the fold step adds its amount to the entry of its own type when
its currency is USD, uniformly over the seed values of the three fixed keys. -/
theorem cost_dist_foldl (costs : List Models.CostModel) (g : String → ℚ) :
    costs.foldl
      (fun d c => if c.currency == "USD" then Models.addKey d c.type c.amount else d)
      (Models.CostModel.VALID_TYPES.map (fun t => (t, g t)))
    = Models.CostModel.VALID_TYPES.map
        (fun t => (t, g t + Models.usdSumByType costs t)) := by
  induction costs generalizing g with
  | nil => simp [Models.usdSumByType]
  | cons c cs ih =>
    rw [List.foldl_cons]
    by_cases hu : c.currency == "USD"
    · rw [if_pos hu]
      have hstep : Models.addKey
          (Models.CostModel.VALID_TYPES.map (fun t => (t, g t))) c.type c.amount
          = Models.CostModel.VALID_TYPES.map
              (fun t => (t, if t == c.type then g t + c.amount else g t)) := by
        rw [Models.addKey, List.map_map]
        refine List.map_congr_left fun t _ => ?_
        exact (apply_ite (fun z => (t, z)) ((t == c.type) = true) (g t + c.amount) (g t)).symm
      rw [hstep, ih]
      refine List.map_congr_left fun t _ => ?_
      have hsum : Models.usdSumByType (c :: cs) t
          = (if c.type == t then c.amount else 0) + Models.usdSumByType cs t := by
        rw [Models.usdSumByType, List.filter_cons]
        by_cases ht : c.type == t
        · simp [hu, ht, Models.usdSumByType]
        · simp [hu, ht, Models.usdSumByType]
      rw [hsum]
      by_cases ht : t = c.type
      · subst ht
        simp [add_assoc]
      · have h1 : (t == c.type) = false := beq_eq_false_iff_ne.mpr ht
        have h2 : (c.type == t) = false := beq_eq_false_iff_ne.mpr (Ne.symm ht)
        simp [h1, h2]
    · rw [if_neg hu, ih]
      refine List.map_congr_left fun t _ => ?_
      have hsum : Models.usdSumByType (c :: cs) t = Models.usdSumByType cs t := by
        rw [Models.usdSumByType, List.filter_cons]
        simp [hu, Models.usdSumByType]
      rw [hsum]

/-- C9: for a cost list of validated records, the cost distribution by type maps
each of the three cost types to the sum of the USD-only amounts of that type
(Python would raise `KeyError` on a non-validated type, hence the hypothesis),
and a PKR-only cost list yields the all-zero distribution. -/
theorem c9_cost_distribution_usd_only (ps : Models.ProjectStats)
    (h : ∀ c ∈ ps.costs, c.type ∈ Models.CostModel.VALID_TYPES) :
    ps.get_cost_distribution_by_type
        = Models.CostModel.VALID_TYPES.map
            (fun t => (t, Models.usdSumByType ps.costs t)) ∧
    ((∀ c ∈ ps.costs, c.currency = "PKR") →
      ps.get_cost_distribution_by_type
        = [("Tool", 0), ("Freelancer", 0), ("Other", 0)]) := by
  have hd : ps.get_cost_distribution_by_type
      = Models.CostModel.VALID_TYPES.map
          (fun t => (t, Models.usdSumByType ps.costs t)) := by
    have := cost_dist_foldl ps.costs (fun _ => 0)
    simpa [Models.ProjectStats.get_cost_distribution_by_type] using this
  refine ⟨hd, fun hpkr => ?_⟩
  have hz : ∀ t, Models.usdSumByType ps.costs t = 0 := by
    intro t
    rw [Models.usdSumByType]
    have : ps.costs.filter (fun c => c.currency == "USD" && c.type == t) = [] := by
      rw [List.filter_eq_nil_iff]
      intro c hc
      simp [hpkr c hc]
    rw [this]
    simp
  rw [hd]
  simp [Models.CostModel.VALID_TYPES, hz]

/-- C9 witness: the theorem applied to a single PKR-only cost list yields the
all-zero distribution. -/
theorem c9_cost_distribution_usd_only_witness :
    Models.ProjectStats.get_cost_distribution_by_type
        ⟨[], [⟨some 1, "Other", 7, "PKR", "", "t"⟩], 0⟩
      = [("Tool", 0), ("Freelancer", 0), ("Other", 0)] :=
  (c9_cost_distribution_usd_only ⟨[], [⟨some 1, "Other", 7, "PKR", "", "t"⟩], 0⟩
    (by intro c hc; fin_cases hc <;> decide)).2
    (by intro c hc; fin_cases hc <;> rfl)

/-- C8 witness: the theorem applied to a one-video store and a new video with the
same id `v1`. -/
theorem c8_duplicate_video_add_rejected_witness :
    Models.DataManager.add_video [⟨"v1", "Brand", "Final", none, none⟩]
      ⟨"v1", "System", "VO", none, none⟩
      = (false, [⟨"v1", "Brand", "Final", none, none⟩]) :=
  c8_duplicate_video_add_rejected _ _
    ⟨⟨"v1", "Brand", "Final", none, none⟩, by simp, rfl⟩

/-- Membership in the canonicalised combined status set is membership in either
progression list. -/
theorem mem_all_statuses (x : String) :
    x ∈ App.all_statuses
      ↔ x ∈ Database.VIDEO_STATUSES ∨ x ∈ Database.TESTIMONIAL_STATUSES := by
  rw [App.all_statuses, List.mem_dedup, List.mem_append]

/-- C1: the dashboard status distribution has one key for every status string in
the union of the two progression lists; every key maps to the number of videos
whose literal `status` field equals it (the video's type is never consulted);
and a status with no videos is present with count `0`. -/
theorem c1_status_distribution (videos : List Database.Video) (s : String) :
    ((∃ n, (s, n) ∈ App.status_counts videos)
        ↔ s ∈ Database.VIDEO_STATUSES ∨ s ∈ Database.TESTIMONIAL_STATUSES) ∧
    (∀ n, (s, n) ∈ App.status_counts videos
        → n = videos.countP (fun v => v.status == s)) ∧
    ((s ∈ Database.VIDEO_STATUSES ∨ s ∈ Database.TESTIMONIAL_STATUSES)
        → (∀ v ∈ videos, v.status ≠ s) → (s, 0) ∈ App.status_counts videos) := by
  refine ⟨⟨?_, ?_⟩, ?_, ?_⟩
  · rintro ⟨n, hn⟩
    rw [App.status_counts, List.mem_map] at hn
    obtain ⟨a, ha, hEq⟩ := hn
    rw [Prod.mk.injEq] at hEq
    exact (mem_all_statuses s).mp (hEq.1 ▸ ha)
  · intro hs
    exact ⟨_, List.mem_map.mpr ⟨s, (mem_all_statuses s).mpr hs, rfl⟩⟩
  · intro n hn
    rw [App.status_counts, List.mem_map] at hn
    obtain ⟨a, _, hEq⟩ := hn
    rw [Prod.mk.injEq] at hEq
    rw [← hEq.2, List.countP_eq_length_filter, hEq.1]
  · intro hs hnone
    have hfil : videos.filter (fun v => v.status == s) = [] := by
      rw [List.filter_eq_nil_iff]
      intro v hv
      simp only [beq_iff_eq]
      exact hnone v hv
    exact List.mem_map.mpr ⟨s, (mem_all_statuses s).mpr hs, by rw [hfil]; rfl⟩

/-- C1 witness: applying the theorem to a store holding one video at a
Testimonial-only stage shows the combined set is used: the key
`Avatar Creation` is present, its count is the literal-status count, and the
unused key `Final` is present with count `0`. -/
theorem c1_status_distribution_witness :
    ("Avatar Creation" ∈ Database.VIDEO_STATUSES
      ∨ "Avatar Creation" ∈ Database.TESTIMONIAL_STATUSES) ∧
    ("Final", 0)
      ∈ App.status_counts [⟨"a", "Brand", "Avatar Creation", none, none⟩] :=
  ⟨Or.inr (by decide),
    (c1_status_distribution [⟨"a", "Brand", "Avatar Creation", none, none⟩] "Final").2.2
      (Or.inl (by decide)) (by intro v hv; fin_cases hv <;> decide)⟩

/-- C6: a status update whose new status is outside the progression list
applicable to the stored video's type (7-stage for Testimonial, 5-stage
otherwise) is rejected with an error flash, and the stored table — in particular
the video's `status` field — is unchanged. -/
theorem c6_invalid_status_update_rejected (videos : List Database.Video)
    (now vid s : String) (v : Database.Video)
    (hfind : videos.find? (fun w => w.id == vid) = some v)
    (hs : s ∉ Database.statusListFor v.type) :
    (App.update_video_status videos now (some vid) (some s)).1 = videos ∧
    ((App.update_video_status videos now (some vid) (some s)).2).isError = true := by
  unfold App.update_video_status
  by_cases hb : (App.isBlank (some vid) || App.isBlank (some s)) = true
  · rw [if_pos hb]
    exact ⟨rfl, rfl⟩
  · rw [if_neg hb]
    simp only [Option.getD_some]
    rw [hfind]
    have hcon : (Database.statusListFor v.type).contains s = false := by
      simpa using hs
    simp only [hcon]
    exact ⟨rfl, rfl⟩

/-- C6 witness: the theorem applied to a store holding one Brand video and the
new status `Avatar Creation`, which belongs only to the Testimonial list. -/
theorem c6_invalid_status_update_rejected_witness :
    (App.update_video_status [⟨"v1", "Brand", "VO", none, none⟩] "now"
        (some "v1") (some "Avatar Creation")).1
      = [⟨"v1", "Brand", "VO", none, none⟩] ∧
    ((App.update_video_status [⟨"v1", "Brand", "VO", none, none⟩] "now"
        (some "v1") (some "Avatar Creation")).2).isError = true :=
  c6_invalid_status_update_rejected _ "now" "v1" "Avatar Creation"
    ⟨"v1", "Brand", "VO", none, none⟩ (by rfl) (by decide)

/-- C10: `get_progress_percentage` never raises: when the video's status belongs
to the progression list applicable to its type (`statusListFor`, the 7-stage list
for `Testimonial` and the 5-stage list otherwise) it returns
`((index of the status) + 1) / (length of the list) * 100`, otherwise `0.0`; the
result always lies in `[0, 100]`. -/
theorem c10_progress_percentage (v : Database.Video) :
    (v.status ∈ Database.statusListFor v.type →
      v.get_progress_percentage
        = (((Database.statusListFor v.type).indexOf v.status : ℚ) + 1)
            / ((Database.statusListFor v.type).length : ℚ) * 100) ∧
    (v.status ∉ Database.statusListFor v.type → v.get_progress_percentage = 0) ∧
    0 ≤ v.get_progress_percentage ∧ v.get_progress_percentage ≤ 100 := by
  have hlen : (Database.statusListFor v.type).length = 5
      ∨ (Database.statusListFor v.type).length = 7 := by
    rw [Database.statusListFor]
    by_cases ht : (v.type == "Testimonial") = true
    · rw [if_pos ht]; right; rfl
    · rw [if_neg ht]; left; rfl
  refine ⟨?_, ?_, ?_⟩
  · intro hmem
    have hlt : (Database.statusListFor v.type).findIdx (fun s => s == v.status)
        < (Database.statusListFor v.type).length :=
      List.findIdx_lt_length_of_exists ⟨v.status, hmem, by simp⟩
    have hfi : (Database.statusListFor v.type).findIdx? (fun s => s == v.status)
        = some ((Database.statusListFor v.type).findIdx (fun s => s == v.status)) :=
      List.findIdx?_eq_some_iff_findIdx_eq.mpr ⟨hlt, rfl⟩
    rw [Database.Video.get_progress_percentage]
    rw [hfi]
    rfl
  · intro hmem
    have hfi : (Database.statusListFor v.type).findIdx? (fun s => s == v.status)
        = none := by
      rw [List.findIdx?_eq_none_iff]
      intro x hx
      exact beq_eq_false_iff_ne.mpr fun hEq => hmem (hEq ▸ hx)
    rw [Database.Video.get_progress_percentage, hfi]
  · by_cases hmem : v.status ∈ Database.statusListFor v.type
    · have hlt : (Database.statusListFor v.type).findIdx (fun s => s == v.status)
          < (Database.statusListFor v.type).length :=
        List.findIdx_lt_length_of_exists ⟨v.status, hmem, by simp⟩
      have hfi : (Database.statusListFor v.type).findIdx? (fun s => s == v.status)
          = some ((Database.statusListFor v.type).findIdx (fun s => s == v.status)) :=
        List.findIdx?_eq_some_iff_findIdx_eq.mpr ⟨hlt, rfl⟩
      have hval : v.get_progress_percentage
          = (((Database.statusListFor v.type).findIdx (fun s => s == v.status) : ℚ) + 1)
              / ((Database.statusListFor v.type).length : ℚ) * 100 := by
        rw [Database.Video.get_progress_percentage, hfi]
      rw [hval]
      have hnum : (0 : ℚ)
          < ((Database.statusListFor v.type).findIdx (fun s => s == v.status) : ℚ) + 1 := by
        positivity
      have hle : ((Database.statusListFor v.type).findIdx (fun s => s == v.status) : ℚ) + 1
          ≤ ((Database.statusListFor v.type).length : ℚ) := by
        exact_mod_cast hlt
      have hpos : (0 : ℚ) < ((Database.statusListFor v.type).length : ℚ) := by
        rcases hlen with h | h <;> rw [h] <;> norm_num
      constructor
      · positivity
      · calc (((Database.statusListFor v.type).findIdx (fun s => s == v.status) : ℚ) + 1)
              / ((Database.statusListFor v.type).length : ℚ) * 100
            ≤ 1 * 100 := by
              apply mul_le_mul_of_nonneg_right _ (by norm_num)
              exact (div_le_one hpos).mpr hle
          _ = 100 := by norm_num
    · have hz : v.get_progress_percentage = 0 := by
        have hfi : (Database.statusListFor v.type).findIdx? (fun s => s == v.status)
            = none := by
          rw [List.findIdx?_eq_none_iff]
          intro x hx
          exact beq_eq_false_iff_ne.mpr fun hEq => hmem (hEq ▸ hx)
        rw [Database.Video.get_progress_percentage, hfi]
      rw [hz]
      norm_num

/-- C10 witness: the theorem applied to a Testimonial video at stage
`Avatar Creation` (the second of seven stages), whose progress is `2/7 · 100`. -/
theorem c10_progress_percentage_witness :
    Database.Video.get_progress_percentage
        ⟨"a", "Testimonial", "Avatar Creation", none, none⟩ = 200 / 7 := by
  have h := (c10_progress_percentage
    ⟨"a", "Testimonial", "Avatar Creation", none, none⟩).1 (by decide)
  rw [h]
  norm_num [Database.statusListFor, Database.TESTIMONIAL_STATUSES,
    show List.indexOf "Avatar Creation"
        ["Conceptualization & Script", "Avatar Creation", "Avatar Video Generation",
         "VO", "Visuals", "Animations & Editing", "Final"] = 1 from by decide]

/-- Empty string is the least string in lexicographic order. -/
theorem empty_string_le (s : String) : "" ≤ s := by
  rw [String.le_iff_toList_le, String.toList_empty]
  exact List.nil_le

/-- Python's `sorted(…, key=key, reverse=True)` — a stable descending sort — is
a permutation of its input, is pairwise descending on the key, and keeps every
input pair whose left element sorts no later than its right element in order. -/
theorem stable_desc_sort_spec {α : Type} (key : α → String) (l : List α) :
    (l.mergeSort (fun a b => decide (key b ≤ key a))).Perm l ∧
    (l.mergeSort (fun a b => decide (key b ≤ key a))).Pairwise
      (fun a b => key b ≤ key a) ∧
    (∀ a b, key b ≤ key a → List.Sublist [a, b] l →
      List.Sublist [a, b] (l.mergeSort (fun a b => decide (key b ≤ key a)))) := by
  have htrans : ∀ (a b c : α), decide (key b ≤ key a) = true →
      decide (key c ≤ key b) = true → decide (key c ≤ key a) = true := by
    intro a b c h1 h2
    simp only [decide_eq_true_eq] at h1 h2 ⊢
    exact h2.trans h1
  have htotal : ∀ (a b : α),
      (decide (key b ≤ key a) || decide (key a ≤ key b)) = true := by
    intro a b
    simp only [Bool.or_eq_true, decide_eq_true_eq]
    exact le_total (key b) (key a)
  refine ⟨List.mergeSort_perm l _, ?_, ?_⟩
  · exact (List.sorted_mergeSort htrans htotal l).imp fun h => decide_eq_true_eq.mp h
  · intro a b hab hsub
    exact List.pair_sublist_mergeSort htrans htotal (decide_eq_true_eq.mpr hab) hsub

/-- C7: for every video list, cost list and limit, recent activity returns, for
each of the two collections, the serialisation of the first `limit` records of a
list that is a permutation of the input, is sorted by creation timestamp
descending, and keeps tied records in input order (a stable descending sort
uniquely determined by these three properties); its length is
`min limit (input length)`; and a record with a missing `created_at` gets key
`""`, the least string, so it sorts last. -/
theorem c7_recent_activity (ps : Models.ProjectStats) (limit : Nat) :
    (∃ S : List Models.Video,
      S.Perm ps.videos ∧
      S.Pairwise (fun a b => Models.videoSortKey b ≤ Models.videoSortKey a) ∧
      (∀ a b : Models.Video, Models.videoSortKey b ≤ Models.videoSortKey a →
        List.Sublist [a, b] ps.videos → List.Sublist [a, b] S) ∧
      (ps.get_recent_activity limit).1 = (S.take limit).map Models.Video.to_dict ∧
      ((ps.get_recent_activity limit).1).length = min limit ps.videos.length) ∧
    (∃ T : List Models.CostModel,
      T.Perm ps.costs ∧
      T.Pairwise (fun a b => Models.costSortKey b ≤ Models.costSortKey a) ∧
      (∀ a b : Models.CostModel, Models.costSortKey b ≤ Models.costSortKey a →
        List.Sublist [a, b] ps.costs → List.Sublist [a, b] T) ∧
      (ps.get_recent_activity limit).2 = (T.take limit).map Models.CostModel.to_dict ∧
      ((ps.get_recent_activity limit).2).length = min limit ps.costs.length) ∧
    (∀ v : Models.Video, v.created_at = none → Models.videoSortKey v = "") ∧
    (∀ s : String, "" ≤ s) := by
  obtain ⟨hperm, hsort, hstab⟩ := stable_desc_sort_spec Models.videoSortKey ps.videos
  obtain ⟨hperm2, hsort2, hstab2⟩ := stable_desc_sort_spec Models.costSortKey ps.costs
  refine ⟨⟨_, hperm, hsort, hstab, rfl, ?_⟩, ⟨_, hperm2, hsort2, hstab2, rfl, ?_⟩,
    fun v hv => by rw [Models.videoSortKey, hv]; rfl, empty_string_le⟩
  · simp [Models.ProjectStats.get_recent_activity]
  · simp [Models.ProjectStats.get_recent_activity]

/-- C7 witness: recent activity with the default limit 5 on a list of 10 videos
returns exactly 5 records. -/
theorem c7_recent_activity_witness :
    ((Models.ProjectStats.get_recent_activity
        ⟨List.replicate 10 ⟨"v", "Brand", "VO", none, none⟩, [], 0⟩ 5).1).length = 5 := by
  obtain ⟨S, -, -, -, -, hlen⟩ := (c7_recent_activity
    ⟨List.replicate 10 ⟨"v", "Brand", "VO", none, none⟩, [], 0⟩ 5).1
  simpa using hlen

end VPT
